import Mathlib

/-!
Verification of the ERPNext-to-Nextcloud-Talk webhook relay (src/app/main.py).

The development shallowly embeds the handler module: JSON payloads become the
inductive `JVal`, the SQLite tables become the record `DB`, the three external
HTTP collaborators (directory API, room-create API, chat API) become the
oracle record `World`, and each handler function of the source becomes a pure
Lean function threading the state and recording an event trace (`Ev`).
Python-specific behaviours that the handler relies on are modelled explicitly:
truthiness (`truthy`), dict lookup via `.get` (`pyGet`), `str.replace`
(`pyReplaceL`), `str()` (`pyStr`), and `json.dumps(..., sort_keys=True)`
(`dumpsSorted`, string escaping is modelled for the quote, backslash and the
common control characters; the \uXXXX escaping of other characters is not
needed by any statement below).  Integers stand in for JSON numbers and the
time-unit of `time.sleep` is a natural number.
-/

/-- A JSON value, as produced by `json.loads` in the source.  Objects are
association lists; a parsed Python dict has pairwise distinct keys, which
theorems assume where it matters. -/
inductive JVal where
  | jnull : JVal
  | jbool (b : Bool) : JVal
  | jnum (n : Int) : JVal
  | jstr (s : String) : JVal
  | jarr (xs : List JVal) : JVal
  | jobj (fields : List (String × JVal)) : JVal

/-- Python truthiness of a JSON-derived value (`if data:`, `if allocated_to_email:`,
`if full_name:`, `if due_date:` in the source). -/
def truthy : JVal → Bool
  | .jnull => false
  | .jbool b => b
  | .jnum n => n != 0
  | .jstr s => s != ""
  | .jarr xs => !xs.isEmpty
  | .jobj fs => !fs.isEmpty

/-- Truthiness of an optional value; `none` models Python `None` (falsy). -/
def truthyOpt : Option JVal → Bool
  | none => false
  | some v => truthy v

/-- Python `dict.get(k)` on a parsed JSON object. -/
def pyGet (fs : List (String × JVal)) (k : String) : Option JVal :=
  (fs.find? (fun p => p.1 == k)).map (fun p => p.2)

/-- Key order used by `json.dumps(..., sort_keys=True)`: compare the key strings. -/
abbrev keyLE {α : Type} (a b : String × α) : Prop := a.1 ≤ b.1

/-- Strict version of `keyLE`, used to show sorted association lists with
distinct keys are unique. -/
abbrev keyLT {α : Type} (a b : String × α) : Prop := a.1 < b.1

instance {α : Type} : DecidableRel (@keyLE α) := fun a b =>
  inferInstanceAs (Decidable (a.1 ≤ b.1))

instance {α : Type} : IsTotal (String × α) keyLE := ⟨fun a b => le_total a.1 b.1⟩

instance {α : Type} : IsTrans (String × α) keyLE := ⟨fun _ _ _ h h2 => le_trans h h2⟩

instance {α : Type} : IsAntisymm (String × α) keyLT := ⟨fun _ _ h h2 => (lt_asymm h h2).elim⟩

/-- Sort an association list by key, as `sort_keys=True` does. -/
def sortPairs {α : Type} (l : List (String × α)) : List (String × α) :=
  List.insertionSort keyLE l

/-- JSON string escaping for one character, as in `json.dumps` (the quote, the
backslash and the common control characters; other characters are emitted
verbatim). -/
def escChar (c : Char) : String :=
  if c = '"' then "\\\""
  else if c = '\\' then "\\\\"
  else if c = '\n' then "\\n"
  else if c = '\t' then "\\t"
  else if c = '\r' then "\\r"
  else String.singleton c

/-- JSON string escaping, character by character. -/
def jesc (s : String) : String :=
  s.data.foldr (fun c acc => escChar c ++ acc) ""

/-- A JSON string literal: quoted and escaped. -/
def qstr (s : String) : String := "\"" ++ jesc s ++ "\""

/-- Join with the default `json.dumps` item separator. -/
def joinComma (l : List String) : String := String.intercalate ", " l

mutual

/-- `json.dumps(v, sort_keys=True)` (source line 211): serialize with sorted
keys at every object, Python default separators. -/
def dumpsSorted : JVal → String
  | .jnull => "null"
  | .jbool true => "true"
  | .jbool false => "false"
  | .jnum n => toString n
  | .jstr s => qstr s
  | .jarr xs => "[" ++ joinComma (dumpsArr xs) ++ "]"
  | .jobj fs => "\x7b" ++ joinComma ((sortPairs (renderFields fs)).map Prod.snd) ++ "\x7d"
termination_by v => sizeOf v

/-- Serialize the elements of a JSON array. -/
def dumpsArr : List JVal → List String
  | [] => []
  | v :: rest => dumpsSorted v :: dumpsArr rest
termination_by xs => sizeOf xs

/-- Serialize object fields, keeping the key alongside the rendered
`"key": value` entry so the entries can then be ordered by key. -/
def renderFields : List (String × JVal) → List (String × String)
  | [] => []
  | (k, v) :: rest => (k, qstr k ++ ": " ++ dumpsSorted v) :: renderFields rest
termination_by fs => sizeOf fs

end

/-- The dedup fingerprint of a payload: `data_str = json.dumps(data, sort_keys=True)`
(source line 211). -/
def fingerprint (v : JVal) : String := dumpsSorted v

mutual

/-- Python `repr()` as used for elements inside a container by `str()`
(string escaping inside repr is not modelled). -/
def pyRepr : JVal → String
  | .jnull => "None"
  | .jbool true => "True"
  | .jbool false => "False"
  | .jnum n => toString n
  | .jstr s => "\x27" ++ s ++ "\x27"
  | .jarr xs => "[" ++ joinComma (pyReprArr xs) ++ "]"
  | .jobj fs => "\x7b" ++ joinComma (pyReprFields fs) ++ "\x7d"
termination_by v => sizeOf v

def pyReprArr : List JVal → List String
  | [] => []
  | v :: rest => pyRepr v :: pyReprArr rest
termination_by xs => sizeOf xs

def pyReprFields : List (String × JVal) → List String
  | [] => []
  | (k, v) :: rest => ("\x27" ++ k ++ "\x27" ++ ": " ++ pyRepr v) :: pyReprFields rest
termination_by fs => sizeOf fs

end

/-- Python `str()` of a JSON-derived value (used by the f-strings in the
source); containers are rendered in `pyRepr` style. -/
def pyStr : JVal → String
  | .jnull => "None"
  | .jbool true => "True"
  | .jbool false => "False"
  | .jnum n => toString n
  | .jstr s => s
  | .jarr xs => "[" ++ joinComma (pyReprArr xs) ++ "]"
  | .jobj fs => "\x7b" ++ joinComma (pyReprFields fs) ++ "\x7d"

/-- Python `str()` of an optional value: `None` prints as `"None"`. -/
def pyStrOpt : Option JVal → String
  | none => "None"
  | some v => pyStr v

/-- Does the character list `pre` begin the character list it is compared to?
Used by the model of `str.replace`. -/
def startsWithL : List Char → List Char → Bool
  | [], _ => true
  | _ :: _, [] => false
  | a :: as, b :: bs => a == b && startsWithL as bs

/-- Python `str.replace(old, new)` on character lists: scan left to right,
replacing each non-overlapping occurrence of `old` (the special behaviour of
an empty `old` is not modelled; the source only ever passes a one-character
`old`). -/
def pyReplaceL (old new : List Char) : List Char → List Char
  | [] => []
  | c :: rest =>
    if old ≠ [] ∧ startsWithL old (c :: rest) then
      new ++ pyReplaceL old new ((c :: rest).drop old.length)
    else
      c :: pyReplaceL old new rest
termination_by l => l.length
decreasing_by
  · simp only [List.length_drop]
    have : old.length ≥ 1 := List.length_pos.mpr (by tauto)
    simp [List.length_cons]
    omega
  · simp [List.length_cons]

/-- Python `str.lower()` (ASCII case folding, which covers the source usage). -/
def pyLower (s : String) : String := String.mk (s.data.map Char.toLower)

/-- Python `str.rstrip("/")`: drop all trailing slashes. -/
def rstripSlash (s : String) : String :=
  String.mk ((s.data.reverse.dropWhile (fun c => c == '/')).reverse)

/-- `get_talk_username` (source lines 90-95): the full name with every space
replaced by a space. -/
def get_talk_username (full_name : String) : String :=
  String.mk (pyReplaceL [' '] [' '] full_name.data)

/-! ## The persistent store, the external collaborators, and run results -/

/-- The two SQLite tables (see spec section 6 and the queries at source lines
104, 137, 214, 220): the set of processed payload fingerprints, and the
`user_cache` map from Talk username to the cached `room_token`.  The
`room_token` column is nullable: the source inserts whatever
`room_data.get("token")` returned. -/
structure DB where
  processed_webhooks : List String
  user_cache : List (String × Option String)

/-- The empty, freshly initialized store. -/
def emptyDB : DB := ⟨[], []⟩

/-- Application configuration read from the environment at startup. -/
structure Config where
  erpnextApiUrl : String

/-- One response of the room-create API (source lines 129-157): a 2xx response
whose `ocs.data` is either a truthy object carrying an optional `token`
field or absent/falsy, an HTTP error with its status code
(`raise_for_status`), or a transport-level `RequestException`. -/
inductive RoomResp where
  | ok (ocsData : Option (Option String)) : RoomResp
  | httpError (status : Nat) : RoomResp
  | transportError : RoomResp

/-- The external world: the directory API keyed by email (the `data` object of
a successful `fetch_user_details`, or `none` on any request error or missing
`data`), the room-create API response for each attempt index, and whether the
chat send succeeds. -/
structure World where
  fetchUser : String → Option (List (String × JVal))
  roomResp : Nat → RoomResp
  sendOk : Bool

/-- Observable events of one handler run, in order: the dedup `SELECT` and its
result, the `INSERT`+`commit` of the fingerprint, the outbound directory call,
the `user_cache` `SELECT`, each room-create `POST` attempt, each backoff
`time.sleep`, and the chat-send `POST` with its success flag. -/
inductive Ev where
  | dedupCheck (fp : String) (dup : Bool) : Ev
  | markCommit (fp : String) : Ev
  | callDirectory (email : String) : Ev
  | convCacheRead (username : String) : Ev
  | callRoomCreate : Ev
  | sleep (delay : Nat) : Ev
  | callChatSend (token : String) (ok : Bool) : Ev
deriving DecidableEq

/-- A JSON response body of the handler: an `error` object or a `message` object. -/
inductive RBody where
  | err (s : String) : RBody
  | msg (s : String) : RBody
deriving DecidableEq

/-- The outcome of one request: an HTTP status with a JSON body as returned by
the handler, or an unhandled Python exception (which Flask surfaces as a 500
crash page, not one of the handler bodies). -/
inductive RunOutcome where
  | resp (status : Nat) (body : RBody) : RunOutcome
  | pyError (exn : String) : RunOutcome
deriving DecidableEq

/-- Result of one webhook run: outcome, final store, event trace. -/
structure RunResult where
  outcome : RunOutcome
  db : DB
  trace : List Ev

/-- Result of `create_talk_conversation`: the returned `room_token` (or `None`),
the final store, and the events of the call. -/
structure ConvResult where
  roomToken : Option String
  db : DB
  trace : List Ev

/-! ## Conversation manager (source lines 98-159) -/

/-- The cache `SELECT` of source line 104: `some tok` when a row for the
username exists (`tok` is its possibly-null `room_token`), `none` when absent. -/
def cacheLookup (db : DB) (username : String) : Option (Option String) :=
  (db.user_cache.find? (fun r => r.1 == username)).map (fun r => r.2)

/-- The `INSERT OR REPLACE` of source lines 136-140: upsert the row for the
username. -/
def cacheUpsert (username : String) (tok : Option String) (db : DB) : DB :=
  { db with user_cache := (username, tok) :: db.user_cache.filter (fun r => r.1 != username) }

/-- The retry loop of source lines 127-159, the bounded
`while retries < max_retries` expressed by recursion on the number of
iterations left (`remaining = max_retries - retries`; `attempt` is the current
attempt index, equal to the number of 429s seen so far, and `backoff` is the
current `backoff_delay`, doubled after each 429).  Each iteration makes one
room-create attempt.  On a truthy `ocs.data` the token field is cached (even
when absent) and returned; on a falsy or missing `ocs.data`, on a non-429 HTTP
error and on a transport error the loop returns `None` at once; a 429 sleeps
the backoff and retries; with no iterations left the loop exits and returns
`None` (source lines 158-159). -/
def convLoop (invite : String) (resp : Nat → RoomResp) (attempt backoff : Nat) (db : DB) :
    Nat → ConvResult
  | 0 => ⟨none, db, []⟩
  | remaining + 1 =>
    match resp attempt with
    | .ok (some tok) => ⟨tok, cacheUpsert invite tok db, [.callRoomCreate]⟩
    | .ok none => ⟨none, db, [.callRoomCreate]⟩
    | .transportError => ⟨none, db, [.callRoomCreate]⟩
    | .httpError s =>
      if s == 429 then
        let r := convLoop invite resp (attempt + 1) (backoff * 2) db remaining
        ⟨r.roomToken, r.db, .callRoomCreate :: .sleep backoff :: r.trace⟩
      else ⟨none, db, [.callRoomCreate]⟩

/-- `create_talk_conversation` (source lines 98-159): read the cache; on a hit
return the cached token immediately, otherwise run the retry loop with
`retries = 0`, `backoff_delay = 1` and `max_retries = 5`. -/
def create_talk_conversation (invite : String) (resp : Nat → RoomResp) (db : DB) : ConvResult :=
  match cacheLookup db invite with
  | some tok => ⟨tok, db, [.convCacheRead invite]⟩
  | none =>
    let r := convLoop invite resp 0 1 db 5
    ⟨r.roomToken, r.db, .convCacheRead invite :: r.trace⟩

/-! ## Identity resolver and notifier (source lines 70-87 and 162-183) -/

/-- `fetch_user_details` (source lines 70-87): one directory call, no retry;
any request error yields `None`, success yields `response.json().get("data")`. -/
def fetch_user_details (w : World) (email : String) : Option (List (String × JVal)) :=
  w.fetchUser email

/-- `send_talk_message` (source lines 162-183): one chat `POST`, returning
whether it succeeded.  The caller ignores this value. -/
def send_talk_message (w : World) : Bool := w.sendOk

/-- The notification text composed at source lines 241-247. -/
def notificationMessage (full_name : String) (due_date : Option JVal) (reference_type : String)
    (reference_name assigned_by : Option JVal) (doc_url : String) : String :=
  let m := "👋 Hey " ++ full_name ++ ", you’ve been assigned a new task!\n\n"
  let m := if truthyOpt due_date then m ++ "*📅 Date:* " ++ pyStrOpt due_date ++ "\n" else m
  let m := m ++ "*📌 Type:* " ++ reference_type ++ "\n"
  let m := m ++ "*🆔 Reference:* [" ++ pyStrOpt reference_name ++ "](" ++ doc_url ++ ")\n"
  let m := m ++ "*👤 Assigned By:* " ++ pyStrOpt assigned_by ++ "\n\n"
  m ++ "Please check it out and take the necessary action."

/-! ## Webhook ingestion pipeline (source lines 186-267) -/

/-- The inbound request body as the handler distinguishes it: a JSON request
already parsed to a value, a form-encoded request whose keys are each
represented by the result of attempting `json.loads` on them (source lines
197-204), or a request with neither JSON nor form data. -/
inductive ReqBody where
  | jsonBody (v : JVal) : ReqBody
  | formBody (keys : List (Option JVal)) : ReqBody
  | noData : ReqBody

/-- The loop of source lines 197-204: the first form key that parses wins. -/
def firstSome : List (Option JVal) → Option JVal
  | [] => none
  | some v :: _ => some v
  | none :: rest => firstSome rest

/-- The payload obtained by the parse stage, if any. -/
def dataOf : ReqBody → Option JVal
  | .jsonBody v => some v
  | .formBody keys => firstSome keys
  | .noData => none

/-- Source lines 224-265: everything after the fingerprint has been inserted
and committed.  `db` is the store already containing the fingerprint.
Mirrors the source faithfully, including the unconditional
`reference_type.lower()` inside the document-URL f-string at line 230, which
raises `AttributeError` whenever the payload is not a dict (line 224) or its
`reference_type` is not a string. -/
def processPayload (data : JVal) (w : World) (cfg : Config) (db : DB) : RunResult :=
  match data with
  | .jobj fs =>
    let allocated_to_email := pyGet fs "allocated_to"
    let reference_type := pyGet fs "reference_type"
    let reference_name := pyGet fs "reference_name"
    let assigned_by_full_name := pyGet fs "assigned_by_full_name"
    let due_date := pyGet fs "due_date"
    match reference_type with
    | some (.jstr rts) =>
      let erpnext_doc_url :=
        rstripSlash cfg.erpnextApiUrl ++ "/app/" ++ pyLower rts ++ "/" ++ pyStrOpt reference_name
      match allocated_to_email with
      | some av =>
        if truthy av then
          let email := pyStr av
          match fetch_user_details w email with
          | some user_details =>
            if !user_details.isEmpty then
              let full_name := pyGet user_details "full_name"
              if truthyOpt full_name then
                match full_name with
                | some (.jstr fn) =>
                  let talk_username := get_talk_username fn
                  let message := notificationMessage fn due_date rts reference_name
                    assigned_by_full_name erpnext_doc_url
                  let conv := create_talk_conversation talk_username w.roomResp db
                  match conv.roomToken with
                  | some tok =>
                    if tok != "" then
                      let _sent := send_talk_message w
                      let _msg := message
                      ⟨.resp 200 (.msg "Notification sent to Nextcloud Talk"), conv.db,
                        .callDirectory email :: conv.trace ++ [.callChatSend tok w.sendOk]⟩
                    else
                      ⟨.resp 500 (.err "Could not create or find Talk conversation"), conv.db,
                        .callDirectory email :: conv.trace⟩
                  | none =>
                    ⟨.resp 500 (.err "Could not create or find Talk conversation"), conv.db,
                      .callDirectory email :: conv.trace⟩
                | _ => ⟨.pyError "AttributeError", db, [.callDirectory email]⟩
              else ⟨.resp 500 (.err "Could not retrieve full name"), db, [.callDirectory email]⟩
            else
              ⟨.resp 500 (.err ("Could not fetch user details for " ++ email)), db,
                [.callDirectory email]⟩
          | none =>
            ⟨.resp 500 (.err ("Could not fetch user details for " ++ email)), db,
              [.callDirectory email]⟩
        else ⟨.resp 400 (.err "Missing \x27allocated_to\x27 in webhook payload"), db, []⟩
      | none => ⟨.resp 400 (.err "Missing \x27allocated_to\x27 in webhook payload"), db, []⟩
    | _ => ⟨.pyError "AttributeError", db, []⟩
  | _ => ⟨.pyError "AttributeError", db, []⟩

/-- Source lines 209-267 given the parse result: the truthiness gate
`if data:`, the dedup check, the fingerprint insert+commit, then
`processPayload`; a falsy or missing payload yields the 400 of line 267. -/
def ingest (dataOpt : Option JVal) (w : World) (cfg : Config) (db : DB) : RunResult :=
  match dataOpt with
  | none => ⟨.resp 400 (.err "No usable data received"), db, []⟩
  | some data =>
    if truthy data then
      let fp := fingerprint data
      if fp ∈ db.processed_webhooks then
        ⟨.resp 200 (.msg "Webhook already processed"), db, [.dedupCheck fp true]⟩
      else
        let db1 : DB := { db with processed_webhooks := fp :: db.processed_webhooks }
        let r := processPayload data w cfg db1
        ⟨r.outcome, r.db, .dedupCheck fp false :: .markCommit fp :: r.trace⟩
    else ⟨.resp 400 (.err "No usable data received"), db, []⟩

/-- `webhook_listener` (source lines 186-267): the request-shape dispatch of
lines 190-207 (a request with neither JSON nor a non-empty form returns the
400 of line 207), then `ingest` on the parse result. -/
def webhook_listener (req : ReqBody) (w : World) (cfg : Config) (db : DB) : RunResult :=
  match req with
  | .noData => ⟨.resp 400 (.err "No data or unsupported data format"), db, []⟩
  | .formBody [] => ⟨.resp 400 (.err "No data or unsupported data format"), db, []⟩
  | .jsonBody v => ingest (some v) w cfg db
  | .formBody (k :: ks) => ingest (firstSome (k :: ks)) w cfg db

/-! ## Trace observations -/

/-- Is the event an outbound HTTP call (directory, room-create or chat-send)? -/
def isOutbound : Ev → Bool
  | .callDirectory _ => true
  | .callRoomCreate => true
  | .callChatSend _ _ => true
  | _ => false

/-- Number of outbound HTTP calls in a trace. -/
def outboundCalls (t : List Ev) : Nat := t.countP isOutbound

/-- Number of directory-API calls in a trace. -/
def directoryCalls (t : List Ev) : Nat :=
  t.countP fun e => match e with | .callDirectory _ => true | _ => false

/-- Number of chat-send calls in a trace. -/
def sendCalls (t : List Ev) : Nat :=
  t.countP fun e => match e with | .callChatSend _ _ => true | _ => false

/-- Number of room-create attempts in a trace. -/
def roomCreateCalls (t : List Ev) : Nat :=
  t.countP fun e => match e with | .callRoomCreate => true | _ => false

/-- Number of conversation-cache reads in a trace. -/
def convCacheReads (t : List Ev) : Nat :=
  t.countP fun e => match e with | .convCacheRead _ => true | _ => false

/-- The backoff delays slept, in order. -/
def sleepDelays (t : List Ev) : List Nat :=
  t.filterMap fun e => match e with | .sleep d => some d | _ => none

/-- Did the run reach the canonicalization/dedup stage? -/
def reachedDedup (t : List Ev) : Bool :=
  t.any fun e => match e with | .dedupCheck _ _ => true | _ => false

/-! ## Concrete fixtures used by witnesses and counterexamples -/

/-- A configuration with the documented ERPNext base URL shape. -/
def cfg0 : Config := ⟨"http://erp.example/"⟩

/-- The scenario payload of spec section 8. -/
def payloadFull : JVal :=
  .jobj [("allocated_to", .jstr "a@x.com"), ("reference_type", .jstr "Task"),
    ("reference_name", .jstr "T-1"), ("assigned_by_full_name", .jstr "Bob"),
    ("due_date", .jstr "2024-01-01")]

/-- A payload carrying only an unrelated field: no `allocated_to`, no
`reference_type`. -/
def payloadFoo : JVal := .jobj [("foo", .jstr "x")]

/-- A payload carrying only `allocated_to`. -/
def payloadOnlyAllocated : JVal := .jobj [("allocated_to", .jstr "a@x.com")]

/-- A world where the directory resolves `a@x.com` to Alice Smith, the
room-create API succeeds with token `tok1`, and the chat send fails. -/
def worldSendFails : World :=
  { fetchUser := fun e => if e == "a@x.com" then some [("full_name", .jstr "Alice Smith")] else none,
    roomResp := fun _ => .ok (some (some "tok1")),
    sendOk := false }

/-- A world where every outbound call fails (directory errors, room-create
transport error, send failure). -/
def worldAllFail : World :=
  { fetchUser := fun _ => none, roomResp := fun _ => .transportError, sendOk := false }

/-- A room-create API that is rate limited on every attempt. -/
def resp429 : Nat → RoomResp := fun _ => .httpError 429

/-- A room-create API that always answers 2xx with a data object lacking the
`token` field. -/
def respNoToken : Nat → RoomResp := fun _ => .ok (some none)

/-- A room-create API that always succeeds with token `tok1`. -/
def respOkTok1 : Nat → RoomResp := fun _ => .ok (some (some "tok1"))

/-- A store whose conversation cache already maps Alice Smith to `tokX`. -/
def dbCachedAlice : DB := ⟨[], [("Alice Smith", some "tokX")]⟩

/-- A two-field payload, and the same payload with its keys reordered. -/
def payloadAB : JVal := .jobj [("a", .jstr "1"), ("b", .jstr "2")]

/-- The key-reordered form of `payloadAB`. -/
def payloadBA : JVal := .jobj [("b", .jstr "2"), ("a", .jstr "1")]

/-- The empty JSON object: parseable, but falsy in Python. -/
def payloadEmpty : JVal := .jobj []

/-! ## General lemmas about the embedding -/

theorem pyReplaceL_space : ∀ l : List Char, pyReplaceL [' '] [' '] l = l := by
  intro l
  induction l with
  | nil => rw [pyReplaceL]
  | cons c rest ih =>
    by_cases hc : c = ' '
    · subst hc
      rw [pyReplaceL]
      rw [if_pos]
      · simp [ih]
      · refine ⟨by simp, ?_⟩
        simp [startsWithL]
    · rw [pyReplaceL]
      rw [if_neg]
      · simp [ih]
      · intro hcontra
        have hS := hcontra.2
        have : (' ' == c) = true := by
          simpa [startsWithL] using hS
        exact hc (eq_of_beq this).symm

theorem sortPairs_sorted_lt {α : Type} (l : List (String × α)) (hn : (l.map Prod.fst).Nodup) :
    List.Sorted keyLT (sortPairs l) := by
  have hs : List.Sorted keyLE (sortPairs l) := List.sorted_insertionSort keyLE l
  have hp : List.Perm (sortPairs l) l := List.perm_insertionSort keyLE l
  have hn2 : ((sortPairs l).map Prod.fst).Nodup := ((hp.map Prod.fst).nodup_iff).mpr hn
  have hne : (sortPairs l).Pairwise fun a b => a.1 ≠ b.1 := List.pairwise_map.mp hn2
  exact List.Pairwise.imp₂ (fun a b h1 h2 => lt_of_le_of_ne h1 h2) hs hne

theorem sortPairs_congr_perm {α : Type} {l₁ l₂ : List (String × α)} (h : List.Perm l₁ l₂)
    (hn : (l₁.map Prod.fst).Nodup) : sortPairs l₁ = sortPairs l₂ := by
  have hn₂ : (l₂.map Prod.fst).Nodup := ((h.map Prod.fst).nodup_iff).mp hn
  exact List.eq_of_perm_of_sorted
    ((List.perm_insertionSort keyLE l₁).trans (h.trans (List.perm_insertionSort keyLE l₂).symm))
    (sortPairs_sorted_lt l₁ hn) (sortPairs_sorted_lt l₂ hn₂)

theorem renderFields_eq_map (fs : List (String × JVal)) :
    renderFields fs = fs.map fun p => (p.1, qstr p.1 ++ ": " ++ dumpsSorted p.2) := by
  induction fs with
  | nil => simp [renderFields]
  | cons p rest ih =>
    obtain ⟨k, v⟩ := p
    simp [renderFields, ih]

theorem fingerprint_perm {fs1 fs2 : List (String × JVal)} (h : fs1.Perm fs2)
    (hn : (fs1.map Prod.fst).Nodup) :
    fingerprint (.jobj fs1) = fingerprint (.jobj fs2) := by
  have h1 : List.Perm (renderFields fs1) (renderFields fs2) := by
    rw [renderFields_eq_map, renderFields_eq_map]
    exact h.map _
  have hn1 : ((renderFields fs1).map Prod.fst).Nodup := by
    rw [renderFields_eq_map, List.map_map]
    exact hn
  have hsort : sortPairs (renderFields fs1) = sortPairs (renderFields fs2) :=
    sortPairs_congr_perm h1 hn1
  show dumpsSorted (.jobj fs1) = dumpsSorted (.jobj fs2)
  simp only [dumpsSorted]
  rw [hsort]

theorem convLoop_processed (invite : String) (resp : Nat → RoomResp) :
    ∀ remaining attempt backoff db,
      (convLoop invite resp attempt backoff db remaining).db.processed_webhooks
        = db.processed_webhooks := by
  intro remaining
  induction remaining with
  | zero => intro attempt backoff db; rfl
  | succ n ih =>
    intro attempt backoff db
    cases hr : resp attempt with
    | ok d =>
      cases d with
      | none => simp [convLoop, hr]
      | some tok => simp [convLoop, hr, cacheUpsert]
    | transportError => simp [convLoop, hr]
    | httpError s =>
      by_cases h429 : (s == 429) = true
      · simp [convLoop, hr, h429, ih]
      · simp [convLoop, hr, h429]

theorem create_talk_processed (invite : String) (resp : Nat → RoomResp) (db : DB) :
    (create_talk_conversation invite resp db).db.processed_webhooks = db.processed_webhooks := by
  cases h : cacheLookup db invite with
  | some tok => simp [create_talk_conversation, h]
  | none => simp [create_talk_conversation, h, convLoop_processed]

theorem processPayload_processed (data : JVal) (w : World) (cfg : Config) (db : DB) :
    (processPayload data w cfg db).db.processed_webhooks = db.processed_webhooks := by
  cases data with
  | jobj fs =>
    simp only [processPayload]
    repeat' split
    all_goals simp [create_talk_processed]
  | jnull => rfl
  | jbool b => rfl
  | jnum n => rfl
  | jstr s => rfl
  | jarr xs => rfl

theorem ingest_dup (data : JVal) (w : World) (cfg : Config) (db : DB)
    (ht : truthy data = true) (hdup : fingerprint data ∈ db.processed_webhooks) :
    ingest (some data) w cfg db
      = ⟨.resp 200 (.msg "Webhook already processed"), db,
          [.dedupCheck (fingerprint data) true]⟩ := by
  simp [ingest, ht, hdup]

theorem ingest_fresh (data : JVal) (w : World) (cfg : Config) (db : DB)
    (ht : truthy data = true) (hnew : fingerprint data ∉ db.processed_webhooks) :
    ingest (some data) w cfg db
      = ⟨(processPayload data w cfg
            { db with processed_webhooks := fingerprint data :: db.processed_webhooks }).outcome,
         (processPayload data w cfg
            { db with processed_webhooks := fingerprint data :: db.processed_webhooks }).db,
         .dedupCheck (fingerprint data) false :: .markCommit (fingerprint data)
           :: (processPayload data w cfg
                { db with processed_webhooks := fingerprint data :: db.processed_webhooks }).trace⟩ := by
  simp [ingest, ht, hnew]

theorem webhook_eq_ingest (req : ReqBody) (w : World) (cfg : Config) (db : DB) (v : JVal)
    (hd : dataOf req = some v) :
    webhook_listener req w cfg db = ingest (some v) w cfg db := by
  cases req with
  | jsonBody u =>
    have hu : u = v := by simpa [dataOf] using hd
    subst hu
    rfl
  | formBody keys =>
    cases keys with
    | nil => simp [dataOf, firstSome] at hd
    | cons k ks =>
      have hk : firstSome (k :: ks) = some v := hd
      simp [webhook_listener, hk]
  | noData => simp [dataOf] at hd

theorem run_keeps_fingerprint (req : ReqBody) (w : World) (cfg : Config) (db : DB) (v : JVal)
    (hd : dataOf req = some v) (ht : truthy v = true) :
    fingerprint v ∈ (webhook_listener req w cfg db).db.processed_webhooks := by
  rw [webhook_eq_ingest req w cfg db v hd]
  by_cases hdup : fingerprint v ∈ db.processed_webhooks
  · rw [ingest_dup v w cfg db ht hdup]
    exact hdup
  · rw [ingest_fresh v w cfg db ht hdup]
    simp [processPayload_processed]

theorem pyGet_isEmpty_false {fs : List (String × JVal)} {k : String} {v : JVal}
    (h : pyGet fs k = some v) : fs.isEmpty = false := by
  cases fs with
  | nil => simp [pyGet] at h
  | cons p rest => rfl

theorem create_conv_hit (db : DB) (invite : String) (resp : Nat → RoomResp) (tok : Option String)
    (h : cacheLookup db invite = some tok) :
    create_talk_conversation invite resp db = ⟨tok, db, [.convCacheRead invite]⟩ := by
  simp [create_talk_conversation, h]

theorem create_conv_first_ok (db : DB) (invite : String) (resp : Nat → RoomResp)
    (tok : Option String) (hmiss : cacheLookup db invite = none) (h0 : resp 0 = .ok (some tok)) :
    create_talk_conversation invite resp db
      = ⟨tok, cacheUpsert invite tok db, [.convCacheRead invite, .callRoomCreate]⟩ := by
  simp [create_talk_conversation, hmiss, convLoop, h0]

theorem create_conv_first_data_missing (db : DB) (invite : String) (resp : Nat → RoomResp)
    (hmiss : cacheLookup db invite = none) (h0 : resp 0 = .ok none) :
    create_talk_conversation invite resp db
      = ⟨none, db, [.convCacheRead invite, .callRoomCreate]⟩ := by
  simp [create_talk_conversation, hmiss, convLoop, h0]

theorem cacheLookup_after_upsert (db : DB) (invite : String) (tok : Option String) :
    cacheLookup (cacheUpsert invite tok db) invite = some tok := by
  simp [cacheLookup, cacheUpsert]

/-! ## Claim theorems -/

/-- C1: the source discards the result of `send_talk_message` (line 252).  On
the spec scenario payload, with identity resolved, the conversation created
with token `tok1` and the chat send FAILING, the handler still returns
`200 OK` with the success body `Notification sent to Nextcloud Talk`; the
trace shows the send was attempted and failed.  This refutes the claim that a
send failure yields the 500 `UpstreamError` outcome and that the 200 success
body is returned only when the send succeeds. -/
theorem send_failure_still_reports_success :
    (webhook_listener (.jsonBody payloadFull) worldSendFails cfg0 emptyDB).outcome
        = .resp 200 (.msg "Notification sent to Nextcloud Talk")
      ∧ Ev.callChatSend "tok1" false
          ∈ (webhook_listener (.jsonBody payloadFull) worldSendFails cfg0 emptyDB).trace
      ∧ (webhook_listener (.jsonBody payloadFull) worldSendFails cfg0 emptyDB).outcome
          ≠ .resp 500 (.err "Could not send message") := by
  refine ⟨by decide, by decide, by decide⟩

/-- C2 counterexample: a parseable, non-duplicate payload lacking
`allocated_to` whose `reference_type` is also absent does NOT get the 400
missing-`allocated_to` response: the handler raises an unhandled
`AttributeError` at the document-URL construction (source line 230,
`reference_type.lower()` on `None`), before the `allocated_to` check. -/
theorem missing_reference_type_crashes :
    (webhook_listener (.jsonBody payloadFoo) worldAllFail cfg0 emptyDB).outcome
        = .pyError "AttributeError"
      ∧ (webhook_listener (.jsonBody payloadFoo) worldAllFail cfg0 emptyDB).outcome
          ≠ .resp 400 (.err "Missing \x27allocated_to\x27 in webhook payload") := by
  refine ⟨by decide, by decide⟩

/-- C2 (amended): for every parseable, non-duplicate payload that is a
non-empty JSON object whose `reference_type` field is a string, if the payload
lacks `allocated_to` the pipeline returns 400 with body
`Missing 'allocated_to' in webhook payload`, whatever other fields are present
or absent. -/
theorem missing_allocated_to_gives_400 (req : ReqBody) (w : World) (cfg : Config) (db : DB)
    (fs : List (String × JVal)) (rts : String)
    (hd : dataOf req = some (.jobj fs))
    (hnew : fingerprint (.jobj fs) ∉ db.processed_webhooks)
    (hrt : pyGet fs "reference_type" = some (.jstr rts))
    (hal : pyGet fs "allocated_to" = none) :
    (webhook_listener req w cfg db).outcome
      = .resp 400 (.err "Missing \x27allocated_to\x27 in webhook payload") := by
  have ht : truthy (.jobj fs) = true := by
    simp [truthy, pyGet_isEmpty_false hrt]
  rw [webhook_eq_ingest req w cfg db _ hd, ingest_fresh _ w cfg db ht hnew]
  simp [processPayload, hrt, hal]

/-- Witness for C2 (amended): the payload carrying only a string
`reference_type` gets the 400 missing-`allocated_to` body. -/
theorem missing_allocated_to_gives_400_witness :
    (webhook_listener (.jsonBody (.jobj [("reference_type", .jstr "Task")])) worldAllFail cfg0
        emptyDB).outcome
      = .resp 400 (.err "Missing \x27allocated_to\x27 in webhook payload") :=
  missing_allocated_to_gives_400 (.jsonBody (.jobj [("reference_type", .jstr "Task")]))
    worldAllFail cfg0 emptyDB [("reference_type", .jstr "Task")] "Task" rfl (by decide) rfl rfl

/-- C3: when the room-create API answers 429 on every attempt and the cache
misses, `create_talk_conversation` makes exactly 5 create attempts, sleeping
the backoff delays 1, 2, 4, 8, 16 (one after each rate-limited attempt, as the
trace shows), and then returns the failure `None`. -/
theorem conv_rate_limited_five_attempts (db : DB) (invite : String) (resp : Nat → RoomResp)
    (hmiss : cacheLookup db invite = none)
    (h429 : ∀ i, i < 5 → resp i = .httpError 429) :
    (create_talk_conversation invite resp db).trace
        = [.convCacheRead invite, .callRoomCreate, .sleep 1, .callRoomCreate, .sleep 2,
           .callRoomCreate, .sleep 4, .callRoomCreate, .sleep 8, .callRoomCreate, .sleep 16]
      ∧ roomCreateCalls (create_talk_conversation invite resp db).trace = 5
      ∧ sleepDelays (create_talk_conversation invite resp db).trace = [1, 2, 4, 8, 16]
      ∧ (create_talk_conversation invite resp db).roomToken = none := by
  have e : convLoop invite resp 0 1 db 5 = ⟨none, db,
      [.callRoomCreate, .sleep 1, .callRoomCreate, .sleep 2, .callRoomCreate, .sleep 4,
       .callRoomCreate, .sleep 8, .callRoomCreate, .sleep 16]⟩ := by
    simp [convLoop, h429 0 (by omega), h429 1 (by omega), h429 2 (by omega), h429 3 (by omega),
      h429 4 (by omega)]
  have ec : create_talk_conversation invite resp db = ⟨none, db,
      [.convCacheRead invite, .callRoomCreate, .sleep 1, .callRoomCreate, .sleep 2,
       .callRoomCreate, .sleep 4, .callRoomCreate, .sleep 8, .callRoomCreate, .sleep 16]⟩ := by
    simp [create_talk_conversation, hmiss, e]
  rw [ec]
  refine ⟨rfl, ?_, ?_, rfl⟩
  · simp [roomCreateCalls, List.countP_cons]
  · simp [sleepDelays]

/-- Witness for C3: a concrete cache-miss run against an always-429 API. -/
theorem conv_rate_limited_five_attempts_witness :
    roomCreateCalls (create_talk_conversation "Alice Smith" resp429 emptyDB).trace = 5
      ∧ sleepDelays (create_talk_conversation "Alice Smith" resp429 emptyDB).trace
          = [1, 2, 4, 8, 16]
      ∧ (create_talk_conversation "Alice Smith" resp429 emptyDB).roomToken = none := by
  have h := conv_rate_limited_five_attempts emptyDB "Alice Smith" resp429 rfl
    (fun i _ => rfl)
  exact ⟨h.2.1, h.2.2.1, h.2.2.2⟩

/-- C4 counterexample: the empty JSON object is a parseable payload, yet
submitting it twice never yields the `Webhook already processed` response: the
first run is rejected 400 without recording a fingerprint, so the second run
gets the same 400 again. -/
theorem falsy_payload_not_deduplicated :
    (webhook_listener (.jsonBody payloadEmpty) worldAllFail cfg0
        (webhook_listener (.jsonBody payloadEmpty) worldAllFail cfg0 emptyDB).db).outcome
        = .resp 400 (.err "No usable data received")
      ∧ (webhook_listener (.jsonBody payloadEmpty) worldAllFail cfg0
          (webhook_listener (.jsonBody payloadEmpty) worldAllFail cfg0 emptyDB).db).outcome
          ≠ .resp 200 (.msg "Webhook already processed") := by
  refine ⟨by decide, by decide⟩

/-- C4 (amended): for every payload whose parsed value is truthy, submitting
it a second time — identical, or a JSON object with its (distinct) top-level
keys reordered — yields `200` with body `Webhook already processed` and makes
no outbound call, whatever the two runs\x27 external worlds do. -/
theorem resubmission_deduplicated (req1 req2 : ReqBody) (w1 w2 : World) (cfg : Config)
    (db : DB) (v1 v2 : JVal)
    (h1 : dataOf req1 = some v1) (h2 : dataOf req2 = some v2) (ht : truthy v1 = true)
    (hr : v2 = v1 ∨ ∃ fs1 fs2, v1 = .jobj fs1 ∧ v2 = .jobj fs2 ∧ List.Perm fs1 fs2
            ∧ (fs1.map Prod.fst).Nodup) :
    (webhook_listener req2 w2 cfg (webhook_listener req1 w1 cfg db).db).outcome
        = .resp 200 (.msg "Webhook already processed")
      ∧ outboundCalls
          (webhook_listener req2 w2 cfg (webhook_listener req1 w1 cfg db).db).trace = 0 := by
  have hfp : fingerprint v2 = fingerprint v1 := by
    rcases hr with rfl | ⟨fs1, fs2, rfl, rfl, hperm, hn⟩
    · rfl
    · exact (fingerprint_perm hperm hn).symm
  have ht2 : truthy v2 = true := by
    rcases hr with rfl | ⟨fs1, fs2, rfl, rfl, hperm, hn⟩
    · exact ht
    · have h1ne : fs1 ≠ [] := by
        intro h0
        subst h0
        simp [truthy] at ht
      have h2ne : fs2 ≠ [] := by
        intro h0
        subst h0
        exact h1ne hperm.eq_nil
      cases fs2 with
      | nil => exact absurd rfl h2ne
      | cons p rest => rfl
  have hmem : fingerprint v2 ∈ (webhook_listener req1 w1 cfg db).db.processed_webhooks := by
    rw [hfp]
    exact run_keeps_fingerprint req1 w1 cfg db v1 h1 ht
  rw [webhook_eq_ingest req2 w2 cfg _ v2 h2, ingest_dup v2 w2 cfg _ ht2 hmem]
  refine ⟨rfl, ?_⟩
  simp [outboundCalls, List.countP_cons, isOutbound]

/-- Witness for C4 (amended): a two-field payload submitted and then
resubmitted with its keys reordered is answered `Webhook already processed`
with no outbound call. -/
theorem resubmission_deduplicated_witness :
    (webhook_listener (.jsonBody payloadBA) worldAllFail cfg0
        (webhook_listener (.jsonBody payloadAB) worldAllFail cfg0 emptyDB).db).outcome
        = .resp 200 (.msg "Webhook already processed")
      ∧ outboundCalls
          (webhook_listener (.jsonBody payloadBA) worldAllFail cfg0
            (webhook_listener (.jsonBody payloadAB) worldAllFail cfg0 emptyDB).db).trace = 0 :=
  resubmission_deduplicated (.jsonBody payloadAB) (.jsonBody payloadBA) worldAllFail worldAllFail
    cfg0 emptyDB payloadAB payloadBA rfl rfl (by decide)
    (Or.inr ⟨[("a", JVal.jstr "1"), ("b", JVal.jstr "2")],
      [("b", JVal.jstr "2"), ("a", JVal.jstr "1")],
      rfl, rfl, List.Perm.swap ("b", JVal.jstr "2") ("a", JVal.jstr "1") [], by decide⟩)

/-- C5 counterexample: when the room-create API fails (transport error), the
first call writes nothing to the cache, so two sequential calls for a
never-before-seen recipient make TWO external create calls, not exactly one as
claimed. -/
theorem failed_create_not_cached_two_calls :
    roomCreateCalls ((create_talk_conversation "u" worldAllFail.roomResp emptyDB).trace
        ++ (create_talk_conversation "u" worldAllFail.roomResp
              (create_talk_conversation "u" worldAllFail.roomResp emptyDB).db).trace) = 2
      ∧ convCacheReads ((create_talk_conversation "u" worldAllFail.roomResp emptyDB).trace
          ++ (create_talk_conversation "u" worldAllFail.roomResp
                (create_talk_conversation "u" worldAllFail.roomResp emptyDB).db).trace) = 2 := by
  refine ⟨by decide, by decide⟩

/-- C5 (amended): (1) for every recipient key with a cache row,
`create_talk_conversation` returns the cached handle at once — one cache read,
no external call; (2) for a never-before-seen recipient, two sequential calls
make exactly one external create call and two cache reads PROVIDED the first
create attempt returns a success response with a data object (on failure
nothing is cached and the second call calls the external API again, as the
counterexample shows). -/
theorem conv_cache_hit_and_single_create :
    (∀ db invite resp tok, cacheLookup db invite = some tok →
        create_talk_conversation invite resp db = ⟨tok, db, [.convCacheRead invite]⟩)
    ∧ (∀ db invite resp tok, cacheLookup db invite = none → resp 0 = .ok (some tok) →
        roomCreateCalls ((create_talk_conversation invite resp db).trace
            ++ (create_talk_conversation invite resp
                  (create_talk_conversation invite resp db).db).trace) = 1
          ∧ convCacheReads ((create_talk_conversation invite resp db).trace
              ++ (create_talk_conversation invite resp
                    (create_talk_conversation invite resp db).db).trace) = 2
          ∧ (create_talk_conversation invite resp
              (create_talk_conversation invite resp db).db).roomToken = tok) := by
  constructor
  · intro db invite resp tok h
    exact create_conv_hit db invite resp tok h
  · intro db invite resp tok hmiss h0
    have e1 := create_conv_first_ok db invite resp tok hmiss h0
    have e2 := create_conv_hit (cacheUpsert invite tok db) invite resp tok
      (cacheLookup_after_upsert db invite tok)
    rw [e1]
    simp only []
    rw [e2]
    refine ⟨?_, ?_, rfl⟩
    · simp [roomCreateCalls, List.countP_cons]
    · simp [convCacheReads, List.countP_cons]

/-- Witness for C5 (amended): a cache hit returns `tokX` without any call, and
a fresh recipient with a first-attempt success makes one create call and two
cache reads over two sequential calls. -/
theorem conv_cache_hit_and_single_create_witness :
    create_talk_conversation "Alice Smith" respOkTok1 dbCachedAlice
        = ⟨some "tokX", dbCachedAlice, [.convCacheRead "Alice Smith"]⟩
      ∧ roomCreateCalls ((create_talk_conversation "u" respOkTok1 emptyDB).trace
          ++ (create_talk_conversation "u" respOkTok1
                (create_talk_conversation "u" respOkTok1 emptyDB).db).trace) = 1 := by
  constructor
  · exact conv_cache_hit_and_single_create.1 dbCachedAlice "Alice Smith" respOkTok1
      (some "tokX") (by decide)
  · exact (conv_cache_hit_and_single_create.2 emptyDB "u" respOkTok1 (some "tok1")
      rfl rfl).1

/-- C6: for every run whose payload parses to a truthy value and whose
fingerprint is not yet recorded, the trace commits the fingerprint right after
the (negative) dedup check and before anything else: the only event preceding
the `markCommit` is the dedup check itself, so no outbound call (directory,
room-create or chat) precedes the commit, and the fingerprint is in the
processed-events store when the run ends. -/
theorem fingerprint_committed_before_outbound (req : ReqBody) (w : World) (cfg : Config)
    (db : DB) (v : JVal) (hd : dataOf req = some v) (ht : truthy v = true)
    (hnew : fingerprint v ∉ db.processed_webhooks) :
    ∃ pre post, (webhook_listener req w cfg db).trace
          = pre ++ Ev.markCommit (fingerprint v) :: post
        ∧ pre = [Ev.dedupCheck (fingerprint v) false]
        ∧ outboundCalls pre = 0
        ∧ fingerprint v ∈ (webhook_listener req w cfg db).db.processed_webhooks := by
  rw [webhook_eq_ingest req w cfg db v hd, ingest_fresh v w cfg db ht hnew]
  refine ⟨[Ev.dedupCheck (fingerprint v) false],
    (processPayload v w cfg
      { db with processed_webhooks := fingerprint v :: db.processed_webhooks }).trace,
    rfl, rfl, ?_, ?_⟩
  · simp [outboundCalls, List.countP_cons, isOutbound]
  · simp [processPayload_processed]

/-- Witness for C6: the spec scenario payload on a fresh store commits its
fingerprint before all outbound work. -/
theorem fingerprint_committed_before_outbound_witness :
    ∃ pre post, (webhook_listener (.jsonBody payloadFull) worldSendFails cfg0 emptyDB).trace
          = pre ++ Ev.markCommit (fingerprint payloadFull) :: post
        ∧ pre = [Ev.dedupCheck (fingerprint payloadFull) false]
        ∧ outboundCalls pre = 0
        ∧ fingerprint payloadFull ∈ (webhook_listener (.jsonBody payloadFull) worldSendFails
            cfg0 emptyDB).db.processed_webhooks :=
  fingerprint_committed_before_outbound (.jsonBody payloadFull) worldSendFails cfg0 emptyDB
    payloadFull rfl (by decide) (by decide)

/-- C7 counterexample: on a 2xx response whose `ocs.data` object is present
but has NO `token` field, `create_talk_conversation` returns the error `None`
(as claimed) but it ALSO writes a cache row with a null handle before
returning — refuting the claim that a handle is persisted only on success
with a returned handle. -/
theorem null_token_cached_on_missing_handle :
    (create_talk_conversation "u" respNoToken emptyDB).roomToken = none
      ∧ (create_talk_conversation "u" respNoToken emptyDB).db.user_cache = [("u", none)] := by
  refine ⟨by decide, by decide⟩

/-- C7 (amended): on a success response with no `ocs.data` object,
`create_talk_conversation` returns an error outcome and writes nothing to the
cache; on a success response WITH a data object it upserts a cache row holding
the (possibly absent) `token` field before returning that field — so a null
entry is cached when the handle is missing from the data object, and the
handle itself is cached before it is returned. -/
theorem conv_persist_only_with_data_object :
    (∀ db invite resp, cacheLookup db invite = none → resp 0 = .ok none →
        (create_talk_conversation invite resp db).roomToken = none
          ∧ (create_talk_conversation invite resp db).db = db)
    ∧ (∀ db invite resp tok, cacheLookup db invite = none → resp 0 = .ok (some tok) →
        (create_talk_conversation invite resp db).roomToken = tok
          ∧ (create_talk_conversation invite resp db).db = cacheUpsert invite tok db) := by
  constructor
  · intro db invite resp hmiss h0
    rw [create_conv_first_data_missing db invite resp hmiss h0]
    exact ⟨rfl, rfl⟩
  · intro db invite resp tok hmiss h0
    rw [create_conv_first_ok db invite resp tok hmiss h0]
    exact ⟨rfl, rfl⟩

/-- Witness for C7 (amended): both success shapes at concrete inputs — a
missing data object caches nothing, a data object without `token` caches a
null entry. -/
theorem conv_persist_only_with_data_object_witness :
    ((create_talk_conversation "u" (fun _ => RoomResp.ok none) emptyDB).roomToken = none
        ∧ (create_talk_conversation "u" (fun _ => RoomResp.ok none) emptyDB).db = emptyDB)
      ∧ ((create_talk_conversation "u" respNoToken emptyDB).roomToken = none
        ∧ (create_talk_conversation "u" respNoToken emptyDB).db
            = cacheUpsert "u" none emptyDB) :=
  ⟨conv_persist_only_with_data_object.1 emptyDB "u" (fun _ => RoomResp.ok none) rfl rfl,
   conv_persist_only_with_data_object.2 emptyDB "u" respNoToken none rfl rfl⟩

/-- C8 counterexample: a non-duplicate payload whose `allocated_to` is
`a@x.com` but which has no `reference_type`, with the directory API failing:
the handler crashes with `AttributeError` at source line 230 BEFORE the
directory call, so the directory API is called zero times and the claimed
500 error body is never produced. -/
theorem directory_failure_crashes_without_reference_type :
    (webhook_listener (.jsonBody payloadOnlyAllocated) worldAllFail cfg0 emptyDB).outcome
        = .pyError "AttributeError"
      ∧ directoryCalls
          (webhook_listener (.jsonBody payloadOnlyAllocated) worldAllFail cfg0 emptyDB).trace
          = 0 := by
  refine ⟨by decide, by decide⟩

/-- C8 (amended): for every non-duplicate payload that is a JSON object with
`allocated_to` a non-empty string email and a string `reference_type`, when
the directory API fails the pipeline responds 500 with the error body naming
that email, sends no message, and calls the directory API exactly once (no
retry). -/
theorem directory_failure_500_single_call (req : ReqBody) (w : World) (cfg : Config) (db : DB)
    (fs : List (String × JVal)) (email rts : String)
    (hd : dataOf req = some (.jobj fs))
    (hnew : fingerprint (.jobj fs) ∉ db.processed_webhooks)
    (hal : pyGet fs "allocated_to" = some (.jstr email)) (hemail : email ≠ "")
    (hrt : pyGet fs "reference_type" = some (.jstr rts))
    (hfetch : w.fetchUser email = none) :
    (webhook_listener req w cfg db).outcome
        = .resp 500 (.err ("Could not fetch user details for " ++ email))
      ∧ directoryCalls (webhook_listener req w cfg db).trace = 1
      ∧ sendCalls (webhook_listener req w cfg db).trace = 0 := by
  have ht : truthy (.jobj fs) = true := by
    simp [truthy, pyGet_isEmpty_false hal]
  have hbne : (email != "") = true := by
    simpa using hemail
  rw [webhook_eq_ingest req w cfg db _ hd, ingest_fresh _ w cfg db ht hnew]
  have hp : processPayload (.jobj fs) w cfg
        { db with processed_webhooks := fingerprint (.jobj fs) :: db.processed_webhooks }
      = ⟨.resp 500 (.err ("Could not fetch user details for " ++ email)),
         { db with processed_webhooks := fingerprint (.jobj fs) :: db.processed_webhooks },
         [.callDirectory email]⟩ := by
    simp [processPayload, hrt, hal, truthy, hbne, pyStr, fetch_user_details, hfetch]
  rw [hp]
  refine ⟨rfl, ?_, ?_⟩
  · simp [directoryCalls, List.countP_cons]
  · simp [sendCalls, List.countP_cons]

/-- Witness for C8 (amended): the spec scenario payload with a failing
directory API gets the 500 body naming `a@x.com`, one directory call, no send. -/
theorem directory_failure_500_single_call_witness :
    (webhook_listener (.jsonBody payloadFull) worldAllFail cfg0 emptyDB).outcome
        = .resp 500 (.err ("Could not fetch user details for " ++ "a@x.com"))
      ∧ directoryCalls (webhook_listener (.jsonBody payloadFull) worldAllFail cfg0
          emptyDB).trace = 1
      ∧ sendCalls (webhook_listener (.jsonBody payloadFull) worldAllFail cfg0 emptyDB).trace
          = 0 :=
  directory_failure_500_single_call (.jsonBody payloadFull) worldAllFail cfg0 emptyDB
    [("allocated_to", .jstr "a@x.com"), ("reference_type", .jstr "Task"),
     ("reference_name", .jstr "T-1"), ("assigned_by_full_name", .jstr "Bob"),
     ("due_date", .jstr "2024-01-01")]
    "a@x.com" "Task" rfl (by decide) rfl (by decide) rfl rfl

theorem ingest_reached_iff (dataOpt : Option JVal) (w : World) (cfg : Config) (db : DB) :
    reachedDedup (ingest dataOpt w cfg db).trace = true
      ↔ ∃ v, dataOpt = some v ∧ truthy v = true := by
  cases dataOpt with
  | none => simp [ingest, reachedDedup]
  | some data =>
    by_cases ht : truthy data = true
    · by_cases hdup : fingerprint data ∈ db.processed_webhooks
      · rw [ingest_dup data w cfg db ht hdup]
        simp [reachedDedup, ht]
      · rw [ingest_fresh data w cfg db ht hdup]
        simp [reachedDedup, ht]
    · have ht' : truthy data = false := by simpa using ht
      simp [ingest, ht', reachedDedup]

/-- C9: the run proceeds past the parse stage to canonicalization and the
dedup check IF AND ONLY IF the request yields a parsed payload that is truthy.
This refutes the claim as stated — a parseable payload is not enough — and
proves the amendment: a JSON body or first-parsing form key whose value is
truthy (e.g. a non-empty object) always proceeds, while parseable but falsy
payloads (the empty object, `null`, `0`, the empty string, `false`, the empty
array) are rejected with 400. -/
theorem parse_proceeds_iff_truthy (req : ReqBody) (w : World) (cfg : Config) (db : DB) :
    reachedDedup (webhook_listener req w cfg db).trace = true
      ↔ ∃ v, dataOf req = some v ∧ truthy v = true := by
  cases req with
  | jsonBody v => exact ingest_reached_iff (some v) w cfg db
  | formBody keys =>
    cases keys with
    | nil => simp [webhook_listener, reachedDedup, dataOf, firstSome]
    | cons k ks => exact ingest_reached_iff (firstSome (k :: ks)) w cfg db
  | noData => simp [webhook_listener, reachedDedup, dataOf]

/-- C9 counterexample: the empty JSON object — a request whose JSON body
parses — is rejected with 400 and never reaches the dedup stage. -/
theorem empty_object_rejected_at_parse :
    (webhook_listener (.jsonBody payloadEmpty) worldAllFail cfg0 emptyDB).outcome
        = .resp 400 (.err "No usable data received")
      ∧ reachedDedup
          (webhook_listener (.jsonBody payloadEmpty) worldAllFail cfg0 emptyDB).trace
          = false := by
  refine ⟨by decide, by decide⟩

/-- C10: `get_talk_username` is the identity function — its single `replace`
substitutes a space for a space (both arguments at source line 93 are the
plain 0x20 space character), so the cache key equals the resolved display
name exactly. -/
theorem get_talk_username_is_identity (s : String) : get_talk_username s = s := by
  cases s with
  | mk d => simp [get_talk_username, pyReplaceL_space]
